import Mathlib

/-!
Shallow embedding of the rate limiter in `rate_limit_blocking.py`
(class `Pipeline`, methods `get_user_info`, `check_and_update_rate_limit`,
`inlet`, `outlet`) together with the decision vocabulary used by the
specification.  Times are modelled as integers; the per-identity state map
`self.user_states` is modelled as a total function defaulting to the freshly
constructed `UserState()`, which is extensionally the same as lazy creation
in `get_user_state`.
-/

namespace RateLimit

/-- `class RateLimitConfig(BaseModel)`: the three configuration fields with
their defaults (`messages_per_minute=5`, `burst_limit=2`, `cooldown_minutes=1`). -/
structure RateLimitConfig where
  messages_per_minute : Int := 5
  burst_limit : Int := 2
  cooldown_minutes : Int := 1
  deriving DecidableEq

/-- `class UserState(BaseModel)`: per-user mutable state with its defaults. -/
structure UserState where
  message_count : Int := 0
  last_reset : Int := 0
  is_blocked : Bool := false
  block_until : Int := 0
  pending_requests : Int := 0
  deriving DecidableEq

/-- The configuration built by `Pipeline.__init__` (`self.config = RateLimitConfig()`). -/
def defaultConfig : RateLimitConfig := {}

/-- The five distinct return sites of `check_and_update_rate_limit`:
line 93 (blocked), line 113 (per-minute limit), line 117 (pending limit),
line 121 (burst warning), line 124 (plain accept). -/
inductive CheckOutcome where
  | stillBlocked (remaining : Int)
  | rateExceeded
  | tooManyPending
  | burstWarn
  | accepted
  deriving DecidableEq

/-- Rejection reasons named by the specification's error taxonomy (section 7). -/
inductive RejectReason where
  | TooManyPending
  | TooFrequent
  | WindowExceeded
  | RateExceeded
  | StillBlocked
  deriving DecidableEq

/-- Decision vocabulary of the specification (section 4.1). -/
inductive Decision where
  | allow
  | allowWarn
  | reject (r : RejectReason)
  deriving DecidableEq

/-- Map each return site of the code to the specification's decision vocabulary. -/
def outcomeDecision : CheckOutcome → Decision
  | .stillBlocked _ => .reject .StillBlocked
  | .rateExceeded => .reject .RateExceeded
  | .tooManyPending => .reject .TooManyPending
  | .burstWarn => .allowWarn
  | .accepted => .allow

/-- The boolean first component of the pair returned by
`check_and_update_rate_limit` at each return site. -/
def outcomeAllowed : CheckOutcome → Bool
  | .stillBlocked _ => false
  | .rateExceeded => false
  | .tooManyPending => false
  | .burstWarn => true
  | .accepted => true

/-- The message string (second component of the returned pair) at each
return site of `check_and_update_rate_limit`. -/
def outcomeMessage (cfg : RateLimitConfig) : CheckOutcome → String
  | .stillBlocked remaining =>
      "Por favor, espere " ++ toString remaining ++ " segundos antes de enviar más mensajes."
  | .rateExceeded =>
      "Ha excedido el límite de " ++ toString cfg.messages_per_minute ++
        " mensajes por minuto. Por favor, espere " ++ toString cfg.cooldown_minutes ++ " minutos."
  | .tooManyPending =>
      "Demasiadas solicitudes pendientes. Por favor, espere a que se procesen las anteriores."
  | .burstWarn =>
      "Por favor, reduzca la frecuencia de sus mensajes para evitar ser bloqueado."
  | .accepted => ""

/-- Lines 97-101: `if current_time - state.last_reset >= 60: state.message_count = 0;
state.last_reset = current_time`. -/
def resetIfDue (now : Int) (s : UserState) : UserState :=
  if 60 ≤ now - s.last_reset then { s with message_count := 0, last_reset := now } else s

/-- Lines 97-105: counter reset followed by the unconditional increments
`state.message_count += 1` and `state.pending_requests += 1`. -/
def bumpState (now : Int) (s : UserState) : UserState :=
  { resetIfDue now s with
      message_count := (resetIfDue now s).message_count + 1,
      pending_requests := (resetIfDue now s).pending_requests + 1 }

/-- Lines 97-124 of `check_and_update_rate_limit`: everything after the
blocked-user check.  The three limit checks run, in source order, on the
already-incremented counters. -/
def checkAfterBlock (cfg : RateLimitConfig) (now : Int) (s : UserState) : CheckOutcome × UserState :=
  if cfg.messages_per_minute < (bumpState now s).message_count then
    (CheckOutcome.rateExceeded,
      { bumpState now s with is_blocked := true,
                             block_until := now + cfg.cooldown_minutes * 60 })
  else if 4 < (bumpState now s).pending_requests then
    (CheckOutcome.tooManyPending, bumpState now s)
  else if cfg.burst_limit < (bumpState now s).message_count then
    (CheckOutcome.burstWarn, bumpState now s)
  else
    (CheckOutcome.accepted, bumpState now s)

/-- Per-identity core of `check_and_update_rate_limit` (lines 88-124): the
blocked-user check (early return while the block is active, otherwise
`state.is_blocked = False`), then `checkAfterBlock`. -/
def checkUserState (cfg : RateLimitConfig) (now : Int) (s : UserState) : CheckOutcome × UserState :=
  if s.is_blocked then
    if now < s.block_until then
      (CheckOutcome.stillBlocked (s.block_until - now), s)
    else
      checkAfterBlock cfg now { s with is_blocked := false }
  else
    checkAfterBlock cfg now s

/-- The `user` dictionary: the keys read anywhere in the file; a key mapped
to `none` models an absent key. -/
structure UserDict where
  id : Option String := none
  role : Option String := none
  display_name : Option String := none
  username : Option String := none
  name : Option String := none
  deriving DecidableEq

/-- `Pipeline.get_user_info` (lines 70-77). -/
def get_user_info : Option UserDict → String × String
  | none => ("unknown", "Usuario Desconocido")
  | some u =>
      (u.id.getD "unknown",
       u.display_name.getD (u.username.getD (u.name.getD ("Usuario " ++ u.id.getD "unknown"))))

/-- `self.user_states`: identity to state, defaulting to `UserState()`
(extensionally equivalent to the lazy creation in `get_user_state`). -/
abbrev StateMap := String → UserState

/-- Writing one identity's state back into the map. -/
def StateMap.update (m : StateMap) (key : String) (s : UserState) : StateMap :=
  fun k => if k = key then s else m k

/-- The state map of a fresh `Pipeline` (`self.user_states = {}`). -/
def initMap : StateMap := fun _ => {}

/-- `Pipeline.check_and_update_rate_limit` (lines 79-124): resolve the
identity with `get_user_info`, run the per-identity check, write the
mutated state back. -/
def check_and_update_rate_limit (cfg : RateLimitConfig) (now : Int) (user : Option UserDict)
    (m : StateMap) : CheckOutcome × StateMap :=
  ((checkUserState cfg now (m (get_user_info user).1)).1,
   StateMap.update m (get_user_info user).1 (checkUserState cfg now (m (get_user_info user).1)).2)

/-- State effect of `Pipeline.outlet` (lines 155-166): when the user has an
`id`, `state.pending_requests = max(0, state.pending_requests - 1)`; the
response object is returned unchanged in every case. -/
def outlet (user : Option UserDict) (m : StateMap) : StateMap :=
  match user with
  | none => m
  | some u =>
      match u.id with
      | none => m
      | some _ =>
          StateMap.update m (get_user_info (some u)).1
            { m (get_user_info (some u)).1 with
                pending_requests := max 0 ((m (get_user_info (some u)).1).pending_requests - 1) }

/-- One host-driven call: a `check` (inbound request) or a `complete`
(`outlet` for a finished response). -/
inductive Op where
  | check (now : Int) (user : Option UserDict)
  | complete (user : Option UserDict)

/-- State effect of one call on the shared map. -/
def applyOp (cfg : RateLimitConfig) (m : StateMap) : Op → StateMap
  | .check now u => (check_and_update_rate_limit cfg now u m).2
  | .complete u => outlet u m

/-- Run a finite interleaving of `check`/`complete` calls. -/
def runOps (cfg : RateLimitConfig) (m : StateMap) : List Op → StateMap
  | [] => m
  | op :: ops => runOps cfg (applyOp cfg m op) ops

/-- Run a sequence of checks against a single identity's state. -/
def checkSeq (cfg : RateLimitConfig) : List Int → UserState → UserState
  | [], s => s
  | t :: ts, s => checkSeq cfg ts (checkUserState cfg t s).2

/-- One element of the `messages` list of the request body (only the
`content` key is read; `none` models a message dict without `content`). -/
structure Message where
  content : Option String := none
  deriving DecidableEq

/-- The request body as `inlet` inspects it: not a dict, a dict without a
`messages` key, or a dict with a `messages` list. -/
inductive Body where
  | notDict
  | noMessages
  | withMessages (msgs : List Message)
  deriving DecidableEq

/-- Line 133: `body.get("messages", [{}])[-1].get("content", "") if
isinstance(body, dict) else ""`.  `none` models the `IndexError` raised by
`[-1]` on an empty `messages` list. -/
def extractContent : Body → Option String
  | .notDict => some ""
  | .noMessages => some ""
  | .withMessages ms =>
      match ms.getLast? with
      | none => none
      | some msg => some (msg.content.getD "")

/-- Lines 139-144: append the burst warning to the last message's content.
`none` models the `KeyError` raised by `messages[-1]["content"]` when the
last message has no `content` key. -/
def appendWarning (b : Body) (w : String) : Option Body :=
  match b with
  | .withMessages ms =>
      match ms.getLast? with
      | none => some b
      | some msg =>
          match msg.content with
          | none => none
          | some c =>
              some (.withMessages (ms.dropLast ++ [{ content := some (c ++ "\n\n[Sistema: " ++ w ++ "]") }]))
  | _ => some b

/-- What `inlet` returns: the (possibly annotated) body, or the dict built
by `create_response_dict(message, error=True)`. -/
inductive InletResult where
  | body (b : Body)
  | errorResponse (msg : String)
  deriving DecidableEq

/-- Line 151: the message of the generic error response produced by the
`except` handler of `inlet`. -/
def genericErrorText : String :=
  "Lo siento, hubo un error al procesar su mensaje. Por favor, inténtelo de nuevo en unos momentos."

/-- `Pipeline.inlet` (lines 126-153).  Unknown users (lines 129-131) are
returned unmodified; a fault while extracting the content (line 133) or
while annotating the body (line 143) lands in the `except` handler, which
returns the generic error response. -/
def inlet (cfg : RateLimitConfig) (now : Int) (b : Body) (user : Option UserDict)
    (m : StateMap) : InletResult × StateMap :=
  match user with
  | none => (.body b, m)
  | some u =>
      match u.id with
      | none => (.body b, m)
      | some _ =>
          match extractContent b with
          | none => (.errorResponse genericErrorText, m)
          | some _ =>
              if outcomeAllowed (check_and_update_rate_limit cfg now (some u) m).1 then
                if outcomeMessage cfg (check_and_update_rate_limit cfg now (some u) m).1 = "" then
                  (.body b, (check_and_update_rate_limit cfg now (some u) m).2)
                else
                  match appendWarning b (outcomeMessage cfg (check_and_update_rate_limit cfg now (some u) m).1) with
                  | none => (.errorResponse genericErrorText,
                             (check_and_update_rate_limit cfg now (some u) m).2)
                  | some b2 => (.body b2, (check_and_update_rate_limit cfg now (some u) m).2)
              else
                (.errorResponse (outcomeMessage cfg (check_and_update_rate_limit cfg now (some u) m).1),
                 (check_and_update_rate_limit cfg now (some u) m).2)

/-- A plain identified user (`{"id": "u"}`). -/
def u0 : UserDict := { id := some "u" }

/-- A user claiming the admin role (`{"id": "u", "role": "admin"}`). -/
def adminUser : UserDict := { id := some "u", role := some "admin" }

/-- The state map after a sequence of checks by `u0` at the given times,
starting from a fresh pipeline. -/
def traceChecks (ts : List Int) : StateMap :=
  runOps defaultConfig initMap (ts.map (fun t => Op.check t (some u0)))

/-- The state map after five checks by the admin-role user at times 100-104,
starting from a fresh pipeline. -/
def adminTrace : StateMap :=
  runOps defaultConfig initMap
    [Op.check 100 (some adminUser), Op.check 101 (some adminUser), Op.check 102 (some adminUser),
     Op.check 103 (some adminUser), Op.check 104 (some adminUser)]

/-- A state map whose shared `unknown` bucket is actively blocked. -/
def blockedUnknown : StateMap :=
  StateMap.update initMap "unknown" { message_count := 99, is_blocked := true, block_until := 1000 }

/-! ### Helper lemmas -/

lemma bumpState_pending (now : Int) (s : UserState) :
    (bumpState now s).pending_requests = s.pending_requests + 1 := by
  simp only [bumpState, resetIfDue]
  split <;> rfl

lemma bumpState_mc (now : Int) (s : UserState) :
    (bumpState now s).message_count =
      if 60 ≤ now - s.last_reset then 1 else s.message_count + 1 := by
  simp only [bumpState, resetIfDue]
  split <;> simp

lemma checkAfterBlock_snd_mc (cfg : RateLimitConfig) (now : Int) (s : UserState) :
    (checkAfterBlock cfg now s).2.message_count = (bumpState now s).message_count := by
  simp only [checkAfterBlock]
  split_ifs <;> rfl

lemma checkAfterBlock_snd_pending (cfg : RateLimitConfig) (now : Int) (s : UserState) :
    (checkAfterBlock cfg now s).2.pending_requests = (bumpState now s).pending_requests := by
  simp only [checkAfterBlock]
  split_ifs <;> rfl

lemma step_blocked (cfg : RateLimitConfig) (now : Int) (s : UserState)
    (hb : s.is_blocked = true) (hn : now < s.block_until) :
    checkUserState cfg now s = (CheckOutcome.stillBlocked (s.block_until - now), s) := by
  simp [checkUserState, hb, hn]

lemma step_unblock (cfg : RateLimitConfig) (now : Int) (s : UserState)
    (hb : s.is_blocked = true) (hn : s.block_until ≤ now) :
    checkUserState cfg now s = checkAfterBlock cfg now { s with is_blocked := false } := by
  simp [checkUserState, hb, show ¬ now < s.block_until by omega]

lemma bump_noReset (now mc lr bu p : Int) (b : Bool) (hr : now - lr < 60) :
    bumpState now ⟨mc, lr, b, bu, p⟩ = ⟨mc + 1, lr, b, bu, p + 1⟩ := by
  have h : ¬ (60 ≤ now - lr) := by omega
  simp [bumpState, resetIfDue, h]

lemma bump_reset (now mc lr bu p : Int) (b : Bool) (hw : 60 ≤ now - lr) :
    bumpState now ⟨mc, lr, b, bu, p⟩ = ⟨1, now, b, bu, p + 1⟩ := by
  simp [bumpState, resetIfDue, hw]

lemma step_accept (now mc lr bu p : Int) (hr : now - lr < 60) (h2 : mc + 1 ≤ 2) (h4 : p + 1 ≤ 4) :
    checkUserState defaultConfig now ⟨mc, lr, false, bu, p⟩ =
      (CheckOutcome.accepted, ⟨mc + 1, lr, false, bu, p + 1⟩) := by
  have h0 : checkUserState defaultConfig now ⟨mc, lr, false, bu, p⟩ =
      checkAfterBlock defaultConfig now ⟨mc, lr, false, bu, p⟩ := rfl
  have h5 : ¬ ((5 : Int) < mc + 1) := by omega
  have hp : ¬ ((4 : Int) < p + 1) := by omega
  have hw : ¬ ((2 : Int) < mc + 1) := by omega
  rw [h0]
  simp [checkAfterBlock, bump_noReset now mc lr bu p false hr, defaultConfig, h5, hp, hw]

lemma step_warn (now mc lr bu p : Int) (hr : now - lr < 60) (h2 : 2 < mc + 1)
    (h5 : mc + 1 ≤ 5) (h4 : p + 1 ≤ 4) :
    checkUserState defaultConfig now ⟨mc, lr, false, bu, p⟩ =
      (CheckOutcome.burstWarn, ⟨mc + 1, lr, false, bu, p + 1⟩) := by
  have h0 : checkUserState defaultConfig now ⟨mc, lr, false, bu, p⟩ =
      checkAfterBlock defaultConfig now ⟨mc, lr, false, bu, p⟩ := rfl
  have h5n : ¬ ((5 : Int) < mc + 1) := by omega
  have hp : ¬ ((4 : Int) < p + 1) := by omega
  rw [h0]
  simp [checkAfterBlock, bump_noReset now mc lr bu p false hr, defaultConfig, h5n, hp, h2]

lemma step_pending (now mc lr bu p : Int) (hr : now - lr < 60) (h5 : mc + 1 ≤ 5) (h4 : 4 < p + 1) :
    checkUserState defaultConfig now ⟨mc, lr, false, bu, p⟩ =
      (CheckOutcome.tooManyPending, ⟨mc + 1, lr, false, bu, p + 1⟩) := by
  have h0 : checkUserState defaultConfig now ⟨mc, lr, false, bu, p⟩ =
      checkAfterBlock defaultConfig now ⟨mc, lr, false, bu, p⟩ := rfl
  have h5n : ¬ ((5 : Int) < mc + 1) := by omega
  rw [h0]
  simp [checkAfterBlock, bump_noReset now mc lr bu p false hr, defaultConfig, h5n, h4]

lemma step_rate (now mc lr bu p : Int) (hr : now - lr < 60) (h5 : 5 < mc + 1) :
    checkUserState defaultConfig now ⟨mc, lr, false, bu, p⟩ =
      (CheckOutcome.rateExceeded, ⟨mc + 1, lr, true, now + 60, p + 1⟩) := by
  have h0 : checkUserState defaultConfig now ⟨mc, lr, false, bu, p⟩ =
      checkAfterBlock defaultConfig now ⟨mc, lr, false, bu, p⟩ := rfl
  rw [h0]
  simp [checkAfterBlock, bump_noReset now mc lr bu p false hr, defaultConfig, h5]

lemma step_reset_accept (now mc lr bu p : Int) (hw : 60 ≤ now - lr) (h4 : p + 1 ≤ 4) :
    checkUserState defaultConfig now ⟨mc, lr, false, bu, p⟩ =
      (CheckOutcome.accepted, ⟨1, now, false, bu, p + 1⟩) := by
  have h0 : checkUserState defaultConfig now ⟨mc, lr, false, bu, p⟩ =
      checkAfterBlock defaultConfig now ⟨mc, lr, false, bu, p⟩ := rfl
  have hp : ¬ ((4 : Int) < p + 1) := by omega
  rw [h0]
  simp [checkAfterBlock, bump_reset now mc lr bu p false hw, defaultConfig, hp]

lemma step_reset_pending (now mc lr bu p : Int) (hw : 60 ≤ now - lr) (h4 : 4 < p + 1) :
    checkUserState defaultConfig now ⟨mc, lr, false, bu, p⟩ =
      (CheckOutcome.tooManyPending, ⟨1, now, false, bu, p + 1⟩) := by
  have h0 : checkUserState defaultConfig now ⟨mc, lr, false, bu, p⟩ =
      checkAfterBlock defaultConfig now ⟨mc, lr, false, bu, p⟩ := rfl
  rw [h0]
  simp [checkAfterBlock, bump_reset now mc lr bu p false hw, defaultConfig, h4]

lemma afterBlock_counters (cfg : RateLimitConfig) (now : Int) (t : UserState) :
    (checkAfterBlock cfg now t).2.pending_requests = t.pending_requests + 1 ∧
    (checkAfterBlock cfg now t).2.message_count =
      if 60 ≤ now - t.last_reset then 1 else t.message_count + 1 := by
  refine ⟨?_, ?_⟩
  · rw [checkAfterBlock_snd_pending, bumpState_pending]
  · rw [checkAfterBlock_snd_mc, bumpState_mc]

lemma afterBlock_post_tooMany (cfg : RateLimitConfig) (now : Int) (t : UserState)
    (hmc : (checkAfterBlock cfg now t).2.message_count ≤ cfg.messages_per_minute)
    (hp : 4 < (checkAfterBlock cfg now t).2.pending_requests) :
    (checkAfterBlock cfg now t).1 = CheckOutcome.tooManyPending := by
  have e1 := checkAfterBlock_snd_mc cfg now t
  have e2 := checkAfterBlock_snd_pending cfg now t
  have hp2 : 4 < (bumpState now t).pending_requests := by omega
  simp only [checkAfterBlock]
  rw [if_neg (by omega), if_pos hp2]

lemma checkUserState_pending_nonneg (cfg : RateLimitConfig) (now : Int) (s : UserState)
    (h : 0 ≤ s.pending_requests) : 0 ≤ (checkUserState cfg now s).2.pending_requests := by
  have key : ∀ t : UserState, t.pending_requests = s.pending_requests →
      0 ≤ (checkAfterBlock cfg now t).2.pending_requests := by
    intro t ht
    have h1 := checkAfterBlock_snd_pending cfg now t
    have h2 := bumpState_pending now t
    omega
  simp only [checkUserState]
  split_ifs with h1 h2
  · simpa using h
  · exact key _ rfl
  · exact key _ rfl

lemma applyOp_pending_nonneg (cfg : RateLimitConfig) (m : StateMap) (op : Op)
    (h : ∀ k, 0 ≤ (m k).pending_requests) : ∀ k, 0 ≤ (applyOp cfg m op k).pending_requests := by
  intro k
  cases op with
  | check now u =>
      simp only [applyOp, check_and_update_rate_limit, StateMap.update]
      split_ifs with hk
      · exact checkUserState_pending_nonneg cfg now _ (h _)
      · exact h k
  | complete u =>
      cases u with
      | none => exact h k
      | some v =>
          cases hv : v.id with
          | none =>
              simp only [applyOp, outlet, hv]
              exact h k
          | some i =>
              simp only [applyOp, outlet, hv, StateMap.update]
              split_ifs with hk
              · exact le_max_left 0 _
              · exact h k

lemma runOps_pending_nonneg (cfg : RateLimitConfig) (ops : List Op) :
    ∀ m : StateMap, (∀ k, 0 ≤ (m k).pending_requests) →
      ∀ k, 0 ≤ (runOps cfg m ops k).pending_requests := by
  induction ops with
  | nil => intro m h k; exact h k
  | cons op rest ih =>
      intro m h k
      exact ih _ (applyOp_pending_nonneg cfg m op h) k

lemma outlet_block_until (u : Option UserDict) (m : StateMap) (k : String) :
    (outlet u m k).block_until = (m k).block_until := by
  cases u with
  | none => rfl
  | some v =>
      cases hv : v.id with
      | none => simp [outlet, hv]
      | some i =>
          simp only [outlet, hv, StateMap.update]
          split_ifs with hk
          · subst hk; rfl
          · rfl

/-! ### Claim theorems -/

/-- C1 (amended): a check call short-circuited by an active block leaves the
state entirely unchanged; every other check call increments
`pending_requests` by exactly one and sets `message_count` to the post-reset
value plus one, regardless of whether the outcome is an admit or a reject
(the increments of lines 104-105 happen before the limit checks), so a
RateExceeded or TooManyPending rejection also increments both counters. -/
theorem counters_update_regardless_of_outcome :
    (∀ (cfg : RateLimitConfig) (now : Int) (s : UserState),
        s.is_blocked = true → now < s.block_until →
        checkUserState cfg now s = (CheckOutcome.stillBlocked (s.block_until - now), s)) ∧
    (∀ (cfg : RateLimitConfig) (now : Int) (s : UserState),
        ¬(s.is_blocked = true ∧ now < s.block_until) →
        (checkUserState cfg now s).2.pending_requests = s.pending_requests + 1 ∧
        (checkUserState cfg now s).2.message_count =
          if 60 ≤ now - s.last_reset then 1 else s.message_count + 1) := by
  constructor
  · exact step_blocked
  · intro cfg now s h
    cases hb : s.is_blocked with
    | false =>
        have e : checkUserState cfg now s = checkAfterBlock cfg now s := by
          simp [checkUserState, hb]
        rw [e]
        exact afterBlock_counters cfg now s
    | true =>
        have hn : ¬ now < s.block_until := fun hlt => h ⟨hb, hlt⟩
        rw [step_unblock cfg now s hb (by omega)]
        exact afterBlock_counters cfg now { s with is_blocked := false }

/-- Witness for C1: a still-blocked call at a concrete state, and a
non-blocked call whose counters move from (2, 1) to (3, 2). -/
theorem counters_update_witness :
    ((⟨1, 0, true, 50, 1⟩ : UserState).is_blocked = true) ∧
    ((10 : Int) < (⟨1, 0, true, 50, 1⟩ : UserState).block_until) ∧
    checkUserState defaultConfig 10 ⟨1, 0, true, 50, 1⟩ =
      (CheckOutcome.stillBlocked 40, ⟨1, 0, true, 50, 1⟩) ∧
    (¬((⟨2, 100, false, 0, 1⟩ : UserState).is_blocked = true ∧
        (130 : Int) < (⟨2, 100, false, 0, 1⟩ : UserState).block_until)) ∧
    (checkUserState defaultConfig 130 ⟨2, 100, false, 0, 1⟩).2.pending_requests = 2 ∧
    (checkUserState defaultConfig 130 ⟨2, 100, false, 0, 1⟩).2.message_count = 3 := by
  refine ⟨rfl, by decide, ?_, by decide, ?_, ?_⟩
  · have h := counters_update_regardless_of_outcome.1 defaultConfig 10 ⟨1, 0, true, 50, 1⟩ rfl
      (by decide)
    norm_num at h
    exact h
  · exact (counters_update_regardless_of_outcome.2 defaultConfig 130 ⟨2, 100, false, 0, 1⟩
      (by decide)).1
  · have h := (counters_update_regardless_of_outcome.2 defaultConfig 130 ⟨2, 100, false, 0, 1⟩
      (by decide)).2
    rw [h]
    norm_num

/-- C1 counterexample: after five admitted checks within one window the user
`u0` has counters (5, 5); the sixth check is rejected, yet it changes the
state, raising both counters to 6 — contradicting that any Reject leaves
the identity's counters and pending count unchanged. -/
theorem counters_changed_on_reject :
    outcomeAllowed (check_and_update_rate_limit defaultConfig 105 (some u0)
        (traceChecks [100, 101, 102, 103, 104])).1 = false ∧
    (traceChecks [100, 101, 102, 103, 104] "u").pending_requests = 5 ∧
    (traceChecks [100, 101, 102, 103, 104] "u").message_count = 5 ∧
    ((check_and_update_rate_limit defaultConfig 105 (some u0)
        (traceChecks [100, 101, 102, 103, 104])).2 "u").pending_requests = 6 ∧
    ((check_and_update_rate_limit defaultConfig 105 (some u0)
        (traceChecks [100, 101, 102, 103, 104])).2 "u").message_count = 6 := by
  decide

/-- C2 (amended): when a check is not short-circuited by an active block,
the per-minute counter check has not fired (post-increment `message_count`
is within the limit), and the post-increment pending count exceeds the
hardcoded ceiling 4, the call is rejected TooManyPending; the ceiling is
checked after the block and per-minute checks, not before them.  The
scenario holds: four admitted checks with no complete give a TooManyPending
rejection on the fifth, while one complete call after the four admits lets
a fifth check succeed (with a burst warning). -/
theorem pending_overflow_after_per_minute :
    (∀ (cfg : RateLimitConfig) (now : Int) (s : UserState),
        ¬(s.is_blocked = true ∧ now < s.block_until) →
        (checkUserState cfg now s).2.message_count ≤ cfg.messages_per_minute →
        4 < (checkUserState cfg now s).2.pending_requests →
        (checkUserState cfg now s).1 = CheckOutcome.tooManyPending) ∧
    (check_and_update_rate_limit defaultConfig 104 (some u0)
        (traceChecks [100, 101, 102, 103])).1 = CheckOutcome.tooManyPending ∧
    (check_and_update_rate_limit defaultConfig 104 (some u0)
        (outlet (some u0) (traceChecks [100, 101, 102, 103]))).1 = CheckOutcome.burstWarn := by
  refine ⟨?_, by decide, by decide⟩
  intro cfg now s h hmc hp
  cases hb : s.is_blocked with
  | false =>
      have e : checkUserState cfg now s = checkAfterBlock cfg now s := by
        simp [checkUserState, hb]
      rw [e] at hmc hp ⊢
      exact afterBlock_post_tooMany cfg now s hmc hp
  | true =>
      have hn : ¬ now < s.block_until := fun hlt => h ⟨hb, hlt⟩
      have e := step_unblock cfg now s hb (by omega)
      rw [e] at hmc hp ⊢
      exact afterBlock_post_tooMany cfg now _ hmc hp

/-- Witness for C2: a non-blocked state with four pending requests is
rejected TooManyPending on its next check. -/
theorem pending_overflow_witness :
    (¬((⟨0, 100, false, 0, 4⟩ : UserState).is_blocked = true ∧
        (100 : Int) < (⟨0, 100, false, 0, 4⟩ : UserState).block_until)) ∧
    (checkUserState defaultConfig 100 ⟨0, 100, false, 0, 4⟩).2.message_count ≤
      defaultConfig.messages_per_minute ∧
    4 < (checkUserState defaultConfig 100 ⟨0, 100, false, 0, 4⟩).2.pending_requests ∧
    (checkUserState defaultConfig 100 ⟨0, 100, false, 0, 4⟩).1 = CheckOutcome.tooManyPending :=
  ⟨by decide, by decide, by decide,
   pending_overflow_after_per_minute.1 defaultConfig 100 ⟨0, 100, false, 0, 4⟩
     (by decide) (by decide) (by decide)⟩

/-- C2 counterexample: after five checks the pending count (5) exceeds the
ceiling 4, yet the sixth check is rejected RateExceeded, not TooManyPending
— the pending-overflow check is not evaluated before the other checks. -/
theorem pending_overflow_not_first :
    4 < (traceChecks [100, 101, 102, 103, 104] "u").pending_requests ∧
    (check_and_update_rate_limit defaultConfig 105 (some u0)
        (traceChecks [100, 101, 102, 103, 104])).1 = CheckOutcome.rateExceeded ∧
    CheckOutcome.rateExceeded ≠ CheckOutcome.tooManyPending := by
  decide

/-- C3: for every identity and every finite interleaving of check and
complete (outlet) calls starting from a fresh pipeline, `pending_requests`
never becomes negative; and a complete call on an identity whose pending
count is already 0 leaves it at 0, never below (the `max(0, ...)` floor of
line 161). -/
theorem pending_never_negative :
    (∀ (cfg : RateLimitConfig) (ops : List Op) (k : String),
        0 ≤ (runOps cfg initMap ops k).pending_requests) ∧
    (∀ (u : Option UserDict) (m : StateMap) (k : String),
        (m k).pending_requests = 0 → (outlet u m k).pending_requests = 0) := by
  constructor
  · intro cfg ops k
    exact runOps_pending_nonneg cfg ops initMap (fun _ => le_refl 0) k
  · intro u m k h
    cases u with
    | none => exact h
    | some v =>
        cases hv : v.id with
        | none => simpa [outlet, hv] using h
        | some i =>
            simp only [outlet, hv, StateMap.update]
            split_ifs with hk
            · subst hk
              show max 0 ((m (get_user_info (some v)).1).pending_requests - 1) = 0
              omega
            · exact h

/-- Witness for C3: two completes on a fresh map keep the pending count at
zero exactly. -/
theorem pending_never_negative_witness :
    0 ≤ (runOps defaultConfig initMap
        [Op.complete (some u0), Op.complete (some u0)] "u").pending_requests ∧
    (initMap "u").pending_requests = 0 ∧
    (outlet (some u0) initMap "u").pending_requests = 0 :=
  ⟨pending_never_negative.1 defaultConfig [Op.complete (some u0), Op.complete (some u0)] "u",
   rfl,
   pending_never_negative.2 (some u0) initMap "u" rfl⟩

/-- C4 (amended): for a fresh identity making six checks at non-decreasing
times inside a single fixed 60-second counter window (first call at
`t1 ≥ 60`, last call less than 60 seconds after `t1`), the sixth check is
rejected RateExceeded and sets `block_until = t6 + 60`; every later check
before `block_until` is rejected StillBlocked with the state unchanged; at
any time past `block_until` the block is cleared and the StillBlocked
rejection ends (the next call is then rejected TooManyPending because six
pending requests leaked, not StillBlocked). -/
theorem six_calls_one_window_blocks (t1 t2 t3 t4 t5 t6 : Int) (h1 : 60 ≤ t1) (h12 : t1 ≤ t2)
    (h23 : t2 ≤ t3) (h34 : t3 ≤ t4) (h45 : t4 ≤ t5) (h56 : t5 ≤ t6) (hw : t6 - t1 < 60) :
    checkUserState defaultConfig t6 (checkSeq defaultConfig [t1, t2, t3, t4, t5] {}) =
      (CheckOutcome.rateExceeded, ⟨6, t1, true, t6 + 60, 6⟩) ∧
    (∀ t : Int, t < t6 + 60 →
        checkUserState defaultConfig t ⟨6, t1, true, t6 + 60, 6⟩ =
          (CheckOutcome.stillBlocked (t6 + 60 - t), ⟨6, t1, true, t6 + 60, 6⟩)) ∧
    (∀ t : Int, t6 + 60 ≤ t →
        checkUserState defaultConfig t ⟨6, t1, true, t6 + 60, 6⟩ =
          (CheckOutcome.tooManyPending, ⟨1, t, false, t6 + 60, 7⟩)) := by
  have e1 : checkUserState defaultConfig t1 (⟨0, 0, false, 0, 0⟩ : UserState) =
      (CheckOutcome.accepted, ⟨1, t1, false, 0, 1⟩) := by
    have h := step_reset_accept t1 0 0 0 0 (by omega) (by omega)
    norm_num at h
    exact h
  have e2 : checkUserState defaultConfig t2 (⟨1, t1, false, 0, 1⟩ : UserState) =
      (CheckOutcome.accepted, ⟨2, t1, false, 0, 2⟩) := by
    have h := step_accept t2 1 t1 0 1 (by omega) (by omega) (by omega)
    norm_num at h
    exact h
  have e3 : checkUserState defaultConfig t3 (⟨2, t1, false, 0, 2⟩ : UserState) =
      (CheckOutcome.burstWarn, ⟨3, t1, false, 0, 3⟩) := by
    have h := step_warn t3 2 t1 0 2 (by omega) (by omega) (by omega) (by omega)
    norm_num at h
    exact h
  have e4 : checkUserState defaultConfig t4 (⟨3, t1, false, 0, 3⟩ : UserState) =
      (CheckOutcome.burstWarn, ⟨4, t1, false, 0, 4⟩) := by
    have h := step_warn t4 3 t1 0 3 (by omega) (by omega) (by omega) (by omega)
    norm_num at h
    exact h
  have e5 : checkUserState defaultConfig t5 (⟨4, t1, false, 0, 4⟩ : UserState) =
      (CheckOutcome.tooManyPending, ⟨5, t1, false, 0, 5⟩) := by
    have h := step_pending t5 4 t1 0 4 (by omega) (by omega) (by omega)
    norm_num at h
    exact h
  have s5 : checkSeq defaultConfig [t1, t2, t3, t4, t5] ({} : UserState) =
      ⟨5, t1, false, 0, 5⟩ := by
    simp only [checkSeq, e1, e2, e3, e4, e5]
  refine ⟨?_, ?_, ?_⟩
  · rw [s5]
    have h := step_rate t6 5 t1 0 5 (by omega) (by omega)
    norm_num at h
    exact h
  · intro t ht
    exact step_blocked defaultConfig t ⟨6, t1, true, t6 + 60, 6⟩ rfl ht
  · intro t ht
    rw [step_unblock defaultConfig t ⟨6, t1, true, t6 + 60, 6⟩ rfl ht]
    have h := step_reset_pending t 6 t1 (t6 + 60) 6 (by omega) (by omega)
    norm_num at h
    exact h

/-- Witness for C4 at times 100-105: sixth check RateExceeded with
`block_until = 165`; a check at 130 is StillBlocked with 35 seconds left; a
check at 165 is no longer StillBlocked. -/
theorem six_calls_one_window_witness :
    checkUserState defaultConfig 105 (checkSeq defaultConfig [100, 101, 102, 103, 104] {}) =
      (CheckOutcome.rateExceeded, ⟨6, 100, true, 165, 6⟩) ∧
    checkUserState defaultConfig 130 ⟨6, 100, true, 165, 6⟩ =
      (CheckOutcome.stillBlocked 35, ⟨6, 100, true, 165, 6⟩) ∧
    checkUserState defaultConfig 165 ⟨6, 100, true, 165, 6⟩ =
      (CheckOutcome.tooManyPending, ⟨1, 165, false, 165, 7⟩) := by
  obtain ⟨a, b, c⟩ := six_calls_one_window_blocks 100 101 102 103 104 105 (by norm_num)
    (by norm_num) (by norm_num) (by norm_num) (by norm_num) (by norm_num) (by norm_num)
  refine ⟨?_, ?_, ?_⟩
  · norm_num at a
    exact a
  · have h := b 130 (by norm_num)
    norm_num at h
    exact h
  · have h := c 165 (by norm_num)
    norm_num at h
    exact h

/-- C4 counterexample: six checks within 60 seconds of each other (at 55,
56, 57, 58, 59, 61) whose sixth call is NOT rejected RateExceeded and sets
no block, because the fixed counter window rolled over at t = 60.  "Within
60 seconds" is not sufficient for the claim. -/
theorem six_calls_across_reset :
    ((61 : Int) - 55 < 60) ∧
    (check_and_update_rate_limit defaultConfig 61 (some u0)
        (traceChecks [55, 56, 57, 58, 59])).1 = CheckOutcome.tooManyPending ∧
    CheckOutcome.tooManyPending ≠ CheckOutcome.rateExceeded ∧
    ((check_and_update_rate_limit defaultConfig 61 (some u0)
        (traceChecks [55, 56, 57, 58, 59])).2 "u").is_blocked = false ∧
    ((check_and_update_rate_limit defaultConfig 61 (some u0)
        (traceChecks [55, 56, 57, 58, 59])).2 "u").block_until = 0 := by
  decide

/-- C5 (amended): the check ignores the request's role entirely — its
outcome and state update are identical for any two values of the `role`
field, so admin requests are subject to exactly the same limits as any
other request. -/
theorem role_ignored :
    ∀ (cfg : RateLimitConfig) (now : Int) (i r1 r2 d un n : Option String) (m : StateMap),
      check_and_update_rate_limit cfg now (some ⟨i, r1, d, un, n⟩) m =
        check_and_update_rate_limit cfg now (some ⟨i, r2, d, un, n⟩) m :=
  fun _ _ _ _ _ _ _ _ _ => rfl

/-- C5 counterexample: a user with role "admin" making a sixth check within
one window is rejected RateExceeded — not Admit. -/
theorem admin_not_exempt :
    outcomeDecision (check_and_update_rate_limit defaultConfig 105 (some adminUser)
        adminTrace).1 = Decision.reject RejectReason.RateExceeded ∧
    Decision.reject RejectReason.RateExceeded ≠ Decision.allow := by
  decide

/-- C6 (amended): the code keeps no sliding window of recent timestamps and
never rejects with WindowExceeded, for any configuration, time and state;
in particular a second request arriving one second after the first is
simply admitted. -/
theorem no_window_check :
    (∀ (cfg : RateLimitConfig) (now : Int) (s : UserState),
        outcomeDecision (checkUserState cfg now s).1 ≠
          Decision.reject RejectReason.WindowExceeded) ∧
    (check_and_update_rate_limit defaultConfig 101 (some u0) (traceChecks [100])).1 =
      CheckOutcome.accepted := by
  refine ⟨?_, by decide⟩
  intro cfg now s
  cases h : (checkUserState cfg now s).1 <;> simp [outcomeDecision]

/-- C6 counterexample: with the spec defaults (`max_requests_per_window = 2`
within `window_size_seconds = 5`) the second request at t = 101, one second
after the first, would have to be rejected WindowExceeded with a block set;
the code admits it and sets no block. -/
theorem second_request_in_window_admitted :
    outcomeDecision (check_and_update_rate_limit defaultConfig 101 (some u0)
        (traceChecks [100])).1 = Decision.allow ∧
    ((check_and_update_rate_limit defaultConfig 101 (some u0)
        (traceChecks [100])).2 "u").block_until = 0 ∧
    Decision.allow ≠ Decision.reject RejectReason.WindowExceeded := by
  decide

/-- C7 (amended): the code has no minimum-interval check and never rejects
with TooFrequent, for any configuration, time and state; two checks at
t = 0 and t = 1 by the same identity are both admitted. -/
theorem no_min_interval :
    (∀ (cfg : RateLimitConfig) (now : Int) (s : UserState),
        outcomeDecision (checkUserState cfg now s).1 ≠
          Decision.reject RejectReason.TooFrequent) ∧
    (check_and_update_rate_limit defaultConfig 0 (some u0) initMap).1 =
      CheckOutcome.accepted ∧
    (check_and_update_rate_limit defaultConfig 1 (some u0) (traceChecks [0])).1 =
      CheckOutcome.accepted := by
  refine ⟨?_, by decide, by decide⟩
  intro cfg now s
  cases h : (checkUserState cfg now s).1 <;> simp [outcomeDecision]

/-- C7 counterexample: the second check, one second after the first, is
admitted rather than rejected TooFrequent. -/
theorem rapid_calls_admitted :
    outcomeAllowed (check_and_update_rate_limit defaultConfig 1 (some u0)
        (traceChecks [0])).1 = true ∧
    outcomeDecision (check_and_update_rate_limit defaultConfig 1 (some u0)
        (traceChecks [0])).1 ≠ Decision.reject RejectReason.TooFrequent := by
  decide

/-- C8 (amended): internal faults in `inlet` are swallowed — no exception
crosses the component boundary — but the request is not admitted: `inlet`
returns the generic error response (error=True), not the body.  A fault
raised while extracting the content (the IndexError of line 133 on an
empty `messages` list, before the rate-limit check) leaves the state
untouched; a fault raised while annotating the body with the burst warning
(the KeyError of line 143 on a last message without a `content` key, after
the check) is also caught and answered with the error response, but the
counters the check already incremented keep their new values (here the
message count moved from 2 to 3). -/
theorem inlet_fault_returns_error :
    (∀ (cfg : RateLimitConfig) (now : Int) (i0 : String) (r d un n : Option String) (m : StateMap),
        inlet cfg now (Body.withMessages []) (some ⟨some i0, r, d, un, n⟩) m =
          (InletResult.errorResponse genericErrorText, m)) ∧
    (inlet defaultConfig 102 (Body.withMessages [{ content := none }]) (some u0)
        (traceChecks [100, 101]) =
      (InletResult.errorResponse genericErrorText,
       (check_and_update_rate_limit defaultConfig 102 (some u0) (traceChecks [100, 101])).2)) ∧
    (traceChecks [100, 101] "u").message_count = 2 ∧
    (traceChecks [100, 101] "u").pending_requests = 2 ∧
    ((check_and_update_rate_limit defaultConfig 102 (some u0)
        (traceChecks [100, 101])).2 "u").message_count = 3 ∧
    ((check_and_update_rate_limit defaultConfig 102 (some u0)
        (traceChecks [100, 101])).2 "u").pending_requests = 3 :=
  ⟨fun _ _ _ _ _ _ _ _ => rfl, rfl, by decide, by decide, by decide, by decide⟩

/-- C8 counterexample: on a malformed body (empty `messages` list) with an
identified user, `inlet` returns an error response, not the request — the
fault path is fail-closed, not fail-open. -/
theorem inlet_fault_not_fail_open :
    (inlet defaultConfig 100 (Body.withMessages []) (some u0) initMap).1 =
      InletResult.errorResponse genericErrorText ∧
    (inlet defaultConfig 100 (Body.withMessages []) (some u0) initMap).1 ≠
      InletResult.body (Body.withMessages []) :=
  ⟨rfl, by decide⟩

/-- C9 (amended): requests whose user is missing or lacks an `id` key
bypass rate limiting entirely — `inlet` returns the body unchanged and
mutates no state (and, being total, never throws).  `get_user_info` does
map a missing user or missing id to the shared "unknown" identity, but
`inlet` short-circuits before using it; an empty-string id instead passes
the guard and is bucketed under "" rather than "unknown". -/
theorem missing_identity_bypasses :
    (∀ (cfg : RateLimitConfig) (now : Int) (b : Body) (m : StateMap),
        inlet cfg now b none m = (InletResult.body b, m)) ∧
    (∀ (cfg : RateLimitConfig) (now : Int) (b : Body) (m : StateMap) (r d un n : Option String),
        inlet cfg now b (some ⟨none, r, d, un, n⟩) m = (InletResult.body b, m)) ∧
    (get_user_info none).1 = "unknown" ∧
    (∀ r d un n : Option String, (get_user_info (some ⟨none, r, d, un, n⟩)).1 = "unknown") ∧
    (∀ r d un n : Option String, (get_user_info (some ⟨some "", r, d, un, n⟩)).1 = "") :=
  ⟨fun _ _ _ _ => rfl, fun _ _ _ _ _ _ _ _ => rfl, rfl, fun _ _ _ _ => rfl, fun _ _ _ _ => rfl⟩

/-- C9 counterexample: even with the shared "unknown" bucket actively
blocked (a check on it would reject), a request with a missing user is
returned as an admitted body and the bucket's state is untouched — such
requests are not rate-limited against the "unknown" bucket. -/
theorem missing_identity_not_limited :
    (inlet defaultConfig 100 Body.noMessages none blockedUnknown).1 =
      InletResult.body Body.noMessages ∧
    outcomeAllowed (checkUserState defaultConfig 100 (blockedUnknown "unknown")).1 = false ∧
    (inlet defaultConfig 100 Body.noMessages none blockedUnknown).2 "unknown" =
      blockedUnknown "unknown" :=
  ⟨rfl, by decide, rfl⟩

/-- C10: while an identity's block is active (`now < block_until` and
`is_blocked`), a check call returns StillBlocked and leaves the entire
state — `block_until` included — unchanged, and outlet never modifies
`block_until`; hence `block_until` is monotonically non-decreasing across
any sequence of calls made while the block is active. -/
theorem block_until_stable_while_active :
    (∀ (cfg : RateLimitConfig) (now : Int) (s : UserState),
        s.is_blocked = true → now < s.block_until →
        checkUserState cfg now s = (CheckOutcome.stillBlocked (s.block_until - now), s)) ∧
    (∀ (u : Option UserDict) (m : StateMap) (k : String),
        (outlet u m k).block_until = (m k).block_until) :=
  ⟨step_blocked, outlet_block_until⟩

/-- Witness for C10: an actively blocked state at time 150 with
`block_until = 200` is returned unchanged, and an outlet call preserves
`block_until`. -/
theorem block_until_stable_witness :
    ((⟨3, 0, true, 200, 2⟩ : UserState).is_blocked = true) ∧
    ((150 : Int) < (⟨3, 0, true, 200, 2⟩ : UserState).block_until) ∧
    checkUserState defaultConfig 150 ⟨3, 0, true, 200, 2⟩ =
      (CheckOutcome.stillBlocked 50, ⟨3, 0, true, 200, 2⟩) ∧
    (outlet none initMap "u").block_until = (initMap "u").block_until := by
  refine ⟨rfl, by decide, ?_, block_until_stable_while_active.2 none initMap "u"⟩
  have h := block_until_stable_while_active.1 defaultConfig 150 ⟨3, 0, true, 200, 2⟩ rfl
    (by decide)
  norm_num at h
  exact h

end RateLimit
